import Mathlib

/-!
# Verification of the s3-user provisioning and deprovisioning scripts

Shallow embedding of `src/create_s3_user.py` and `src/delete_s3_user.py`.
The provider operations that the scripts import from the external
`s3_user_utils` module and `boto3` are abstracted as a `World` record (the
spec treats them as out-of-scope collaborators); each orchestrator is
embedded as a function from its CLI inputs and a `World` to the run's
result together with the trace of provider-state-changing calls it issues.
-/

namespace S3User

/-- The character class `[A-Za-z0-9_-]` of the validator's regex. -/
def isAllowedChar (c : Char) : Bool :=
  ('A' ≤ c && c ≤ 'Z') || ('a' ≤ c && c ≤ 'z') || ('0' ≤ c && c ≤ '9')
    || c == '_' || c == '-'

/-- Python's `$` anchor (without `re.MULTILINE`): it matches at the end of
the string, or just before a newline at the end of the string. `pyDollar
rest` says the anchor fires when `rest` remains of the input. -/
def pyDollar (rest : List Char) : Bool :=
  rest == [] || rest == ['\n']

/-- Matcher for `re.match("^[A-Za-z0-9_-]+$", s)`: consume one or more
characters of the class, after which the dollar anchor must fire; with
backtracking the anchor may fire after any nonzero number of consumed
characters. `re.match` anchors at the start of the string only. -/
def matchClassPlus : List Char → Bool
  | [] => false
  | c :: rest => isAllowedChar c && (pyDollar rest || matchClassPlus rest)

/-- `is_valid_user_name` from `create_s3_user.py` (lines 203-209). -/
def is_valid_user_name (user_name : String) : Bool :=
  matchClassPlus user_name.data

/-- The `StringEquals` condition block that `create_policy` attaches to
list policies: the `s3:prefix` values and the `s3:delimiter` values. -/
structure PolicyCondition where
  pfxValues : List String
  delimValues : List String
  deriving DecidableEq

/-- One statement of a policy document. -/
structure PolicyStatement where
  effect : String
  action : String
  resource : String
  condition : Option PolicyCondition
  deriving DecidableEq

/-- A policy document as built by `create_policy`. -/
structure PolicyDoc where
  version : String
  statement : List PolicyStatement
  deriving DecidableEq

/-- The policy-document construction in `create_policy`
(`create_s3_user.py` lines 141-175): resource arn per action, plus the
prefix/delimiter condition for `s3:ListBucket` only. -/
def create_policy_doc (actions bucket_name user_name : String) : PolicyDoc :=
  let resource_arn :=
    if actions == "s3:GetObject" then
      "arn:aws:s3:::" ++ bucket_name ++ "/" ++ user_name ++ "/*"
    else
      "arn:aws:s3:::" ++ bucket_name
  let base : PolicyStatement :=
    { effect := "Allow", action := actions, resource := resource_arn,
      condition := none }
  let stmt :=
    if actions == "s3:ListBucket" then
      let user_folder := user_name ++ "/"
      { base with
          condition := some { pfxValues := ["", user_folder],
                              delimValues := ["/"] } }
    else base
  { version := "2012-10-17", statement := [stmt] }

/-- Modelled from the spec: `s3_user_utils.user_policy_name` is imported by
both scripts but its code is not under `src/`. Per the spec, each policy
gets "a deterministic name derived from the identity name and action kind
(e.g., `{name}-list`, `{name}-get`)". -/
def user_policy_name (user_name kind : String) : String :=
  user_name ++ "-" ++ kind

/-- What one script run presents to its caller: the single printed line and
the process exit status. -/
structure RunResult where
  printed : String
  exitCode : Nat
  deriving DecidableEq

/-- `exit_program` (both scripts): log the error, print
`ERROR. Exiting. <message>`, and `exit(0)`. -/
def exit_program (message : String) : RunResult :=
  { printed := "ERROR. Exiting. " ++ message, exitCode := 0 }

/-- The success path of both scripts: print `Success!` and fall off the
end of the script, ending the process with status 0. -/
def success_result : RunResult :=
  { printed := "Success!", exitCode := 0 }

/-- The top-level `except Exception` handler of both scripts formats a
caught provider exception as `"Error of type {0} occurred:{1!r}"` and then
calls `exit_program`. The Python type name and repr quoting are abstracted
into the modelled message. -/
def format_error (m : String) : String :=
  "Error of type ClientError occurred:" ++ m

/-- A provider-issued credential pair. -/
structure KeyPair where
  id : String
  secret : String
  deriving DecidableEq

/-- The external provider/account state and behaviour visible to one run:
the bucket names that exist, the iam users, the locally-managed policy
names, what `create_key` returns, the access-key ids listed for the user,
the object keys in the bucket, and—for each provider call that can
raise—`some m` when that call raises an exception with message `m`. -/
structure World where
  buckets : List String
  users : List String
  localPolicies : List String
  keyResult : Option KeyPair
  userKeys : List String
  objects : List String
  createUserErr : Option String
  createPolicyErr : Option String
  attachPolicyErr : Option String
  deleteKeyErr : Option String
  detachPolicyErr : Option String
  deletePolicyErr : Option String
  deleteUserErr : Option String
  deleteObjectsErr : Option String
  deriving DecidableEq

/-- Provider-state-changing calls issued by `create_s3_user`, in order
(the local csv write is included; pure reads are not traced). -/
inductive Call where
  | createUser (user_name : String)
  | createPolicy (policy_name : String) (doc : PolicyDoc)
  | attachPolicy (user_name policy_name : String)
  | createKey (user_name : String)
  | writeCsv (filename : String)
  deriving DecidableEq

/-- `create_and_add_policies` (`create_s3_user.py` lines 85-115): the trace
of calls issued and `some msg` when the run terminates inside it (`msg` is
the final printed error text, from `exit_program` or from the exception
caught at top level). The second `policy_exists` check re-lists the local
policies, which by then include the just-created list policy. -/
def create_and_add_policies (bucket_name user_name : String) (w : World) :
    List Call × Option String :=
  let listName := user_policy_name user_name "list"
  if w.localPolicies.contains listName then
    ([], some ("Cannot create policy because it already exists: " ++ listName))
  else
    match w.createPolicyErr with
    | some m => ([], some (format_error m))
    | none =>
      let t1 := [Call.createPolicy listName
                  (create_policy_doc "s3:ListBucket" bucket_name user_name)]
      match w.attachPolicyErr with
      | some m => (t1, some (format_error m))
      | none =>
        let t2 := t1 ++ [Call.attachPolicy user_name listName]
        let getName := user_policy_name user_name "get"
        if (w.localPolicies ++ [listName]).contains getName then
          (t2, some ("Cannot create policy because it already exists: " ++ getName))
        else
          let t3 := t2 ++ [Call.createPolicy getName
                      (create_policy_doc "s3:GetObject" bucket_name user_name)]
          (t3 ++ [Call.attachPolicy user_name getName], none)

/-- `create_s3_user` orchestration (`create_s3_user.py` lines 54-82): the
result of the run together with the trace of provider-state-changing calls
(and the local csv write). Reads (`bucket_exists`, `list_users`,
`list_policies`) are looked up in `w` and do not appear in the trace. -/
def create_s3_user (bucket_name user_name : String) (w : World) :
    RunResult × List Call :=
  if (w.buckets.contains bucket_name) = false then
    (exit_program ("Bucket does not exist: " ++ bucket_name), [])
  else if (is_valid_user_name user_name) = false then
    (exit_program ("Invalid user name: " ++ user_name ++
      ". Only letters, numbers, underscores, and dashes are allowed."), [])
  else if w.users.contains user_name then
    (exit_program ("This user already exists in the account: " ++ user_name), [])
  else
    match w.createUserErr with
    | some m => (exit_program (format_error m), [])
    | none =>
      let t0 := [Call.createUser user_name]
      match create_and_add_policies bucket_name user_name w with
      | (tp, some msg) => (exit_program msg, t0 ++ tp)
      | (tp, none) =>
        let t1 := t0 ++ tp ++ [Call.createKey user_name]
        match w.keyResult with
        | none =>
          (exit_program ("No keys available to save to csv for user " ++ user_name), t1)
        | some _ =>
          (success_result, t1 ++ [Call.writeCsv (user_name ++ "_accessKeys.csv")])

/-- Calls issued by `delete_s3_user`, including the prefix-filtered object
listing and the prefix-filtered batch object deletion. -/
inductive DCall where
  | deleteKey (user_name key_id : String)
  | detachPolicy (user_name policy_name : String)
  | deletePolicy (policy_name : String)
  | deleteUser (user_name : String)
  | listObjects (bucket_name pfx : String)
  | deleteObjects (bucket_name pfx : String)
  deriving DecidableEq

/-- Inner loop of the policy-removal step (`delete_s3_user.py` lines
63-68): every listed local policy whose name matches the deterministic name
is detached from the user and then deleted. -/
def detachDeleteLoop (user_name policy_name : String)
    (detachErr delErr : Option String) : List String → List DCall × Option String
  | [] => ([], none)
  | p :: rest =>
    if p == policy_name then
      match detachErr with
      | some m => ([], some (format_error m))
      | none =>
        match delErr with
        | some m => ([DCall.detachPolicy user_name p], some (format_error m))
        | none =>
          let r := detachDeleteLoop user_name policy_name detachErr delErr rest
          (DCall.detachPolicy user_name p :: DCall.deletePolicy p :: r.1, r.2)
    else
      detachDeleteLoop user_name policy_name detachErr delErr rest

/-- One iteration of the outer policy loop (`delete_s3_user.py` lines
61-70): remove all local policies matching one deterministic name, with a
warning when none matched (`found_policy` stays false). -/
def policyStep (user_name policy_name : String) (w : World) :
    List DCall × List String × Option String :=
  let r := detachDeleteLoop user_name policy_name
             w.detachPolicyErr w.deletePolicyErr w.localPolicies
  if w.localPolicies.contains policy_name then (r.1, [], r.2)
  else (r.1, ["Cannot find policy to remove: " ++ policy_name ++ "."], r.2)

/-- Access-key removal step (`delete_s3_user.py` lines 49-55): delete each
listed key for the user, warn when there are none. -/
def keysStep (user_name : String) (w : World) :
    List DCall × List String × Option String :=
  match w.userKeys with
  | [] => ([], ["No access keys found for user " ++ user_name ++ "."], none)
  | _ :: _ =>
    match w.deleteKeyErr with
    | some m => ([], [], some (format_error m))
    | none => (w.userKeys.map (fun k => DCall.deleteKey user_name k), [], none)

/-- Object key `k` lies under the namespace `p`: the provider's
prefix-filtered listing `bucket.objects.filter(Prefix=p)` returns exactly
the keys with `p` as a leading substring. -/
def startsWithPfx (k p : String) : Bool :=
  p.data.isPrefixOf k.data

/-- `delete_s3_user` orchestration (`delete_s3_user.py` lines 47-102):
result of the run, trace of calls against the provider, and the warning
messages logged. -/
def delete_s3_user (bucket_name user_name : String) (w : World) :
    RunResult × List DCall × List String :=
  let ks := keysStep user_name w
  match ks.2.2 with
  | some msg => (exit_program msg, ks.1, ks.2.1)
  | none =>
    let pl := policyStep user_name (user_policy_name user_name "list") w
    match pl.2.2 with
    | some msg => (exit_program msg, ks.1 ++ pl.1, ks.2.1 ++ pl.2.1)
    | none =>
      let pg := policyStep user_name (user_policy_name user_name "get") w
      match pg.2.2 with
      | some msg =>
        (exit_program msg, ks.1 ++ pl.1 ++ pg.1, ks.2.1 ++ pl.2.1 ++ pg.2.1)
      | none =>
        match w.deleteUserErr with
        | some m =>
          (exit_program (format_error m), ks.1 ++ pl.1 ++ pg.1,
            ks.2.1 ++ pl.2.1 ++ pg.2.1)
        | none =>
          let t1 := ks.1 ++ pl.1 ++ pg.1 ++ [DCall.deleteUser user_name]
          let ws := ks.2.1 ++ pl.2.1 ++ pg.2.1
          if (w.buckets.contains bucket_name) = false then
            (exit_program ("Bucket does not exist: " ++ bucket_name), t1, ws)
          else
            let pfx := user_name ++ "/"
            let t2 := t1 ++ [DCall.listObjects bucket_name pfx]
            if 0 < (w.objects.filter (fun k => startsWithPfx k pfx)).length then
              match w.deleteObjectsErr with
              | some m => (exit_program (format_error m), t2, ws)
              | none =>
                (success_result, t2 ++ [DCall.deleteObjects bucket_name pfx], ws)
            else
              (success_result, t2, ws ++
                ["No objects found for user " ++ user_name ++
                 " in bucket " ++ bucket_name ++ "."])

/-- A deprovisioning call is namespace-scoped for `user_name`: an object
listing or object deletion carries exactly the prefix `user_name ++ "/"`;
calls that do not touch storage objects are unconstrained. -/
def objScoped (user_name : String) : DCall → Bool
  | DCall.listObjects _ p => p == user_name ++ "/"
  | DCall.deleteObjects _ p => p == user_name ++ "/"
  | _ => true

/-- Characterization of the embedded regex matcher: it succeeds exactly on
a nonempty run of class characters, optionally followed by one final
newline (Python's `$` firing just before a string-final newline). -/
lemma matchClassPlus_iff (cs : List Char) :
    matchClassPlus cs = true ↔
      ∃ t : List Char, t ≠ [] ∧ t.all isAllowedChar = true ∧
        (cs = t ∨ cs = t ++ ['\n']) := by
  induction cs with
  | nil =>
    constructor
    · intro h
      simp [matchClassPlus] at h
    · rintro ⟨t, ht, -, (h | h)⟩
      · exact absurd h.symm ht
      · exact absurd h (by simp)
  | cons c rest ih =>
    simp only [matchClassPlus, Bool.and_eq_true, Bool.or_eq_true]
    constructor
    · rintro ⟨hc, hd | hm⟩
      · have hr : rest = [] ∨ rest = ['\n'] := by
          simpa [pyDollar, Bool.or_eq_true] using hd
        rcases hr with rfl | rfl
        · exact ⟨[c], by simp, by simp [hc], Or.inl rfl⟩
        · exact ⟨[c], by simp, by simp [hc], Or.inr rfl⟩
      · obtain ⟨t, ht, hall, hor⟩ := ih.mp hm
        refine ⟨c :: t, by simp, by simp [hc, hall], ?_⟩
        rcases hor with rfl | rfl
        · exact Or.inl rfl
        · exact Or.inr rfl
    · rintro ⟨t, ht, hall, hor⟩
      obtain ⟨c1, t2, rfl⟩ := List.exists_cons_of_ne_nil ht
      simp only [List.all_cons, Bool.and_eq_true] at hall
      rcases hor with heq | heq
      · obtain ⟨hc1, hrest⟩ : c = c1 ∧ rest = t2 := by simpa using heq
        refine ⟨by rw [hc1]; exact hall.1, ?_⟩
        rcases t2 with _ | ⟨d, t3⟩
        · exact Or.inl (by simp [pyDollar, hrest])
        · exact Or.inr (ih.mpr ⟨d :: t3, by simp, hall.2, Or.inl hrest⟩)
      · obtain ⟨hc1, hrest⟩ : c = c1 ∧ rest = t2 ++ ['\n'] := by simpa using heq
        refine ⟨by rw [hc1]; exact hall.1, ?_⟩
        rcases t2 with _ | ⟨d, t3⟩
        · exact Or.inl (by simp [pyDollar, hrest])
        · exact Or.inr (ih.mpr ⟨d :: t3, by simp, hall.2, Or.inr hrest⟩)

/-- C1 counterexample: `"a\n"` is non-empty but contains a character (the
newline) outside `[A-Za-z0-9_-]`, so the claim demands
`is_valid_user_name "a\n" = false`; the code returns true, because
Python's `$` anchor also matches just before a string-final newline. -/
theorem c1_counterexample :
    is_valid_user_name "a\n" = true ∧
      ("a\n".data.all isAllowedChar) = false ∧ "a\n" ≠ "" := by
  decide

/-- C1 (amended): `is_valid_user_name s` returns true iff `s` is a
non-empty string of characters from `[A-Za-z0-9_-]`, or such a string
followed by a single trailing newline; on every other string (the empty
string included) it returns false. -/
theorem c1_valid_user_name_characterization (s : String) :
    is_valid_user_name s = true ↔
      ∃ t : List Char, t ≠ [] ∧ t.all isAllowedChar = true ∧
        (s.data = t ∨ s.data = t ++ ['\n']) :=
  matchClassPlus_iff s.data

/-- C10: for every non-empty string of characters from `[A-Za-z0-9_-]`,
appending a single trailing newline still validates: the regex anchor `$`
also matches just before a newline at the end of the string. -/
theorem c10_trailing_newline_accepted (s : String)
    (h1 : s.data ≠ []) (h2 : s.data.all isAllowedChar = true) :
    is_valid_user_name (s ++ "\n") = true := by
  have hdata : (s ++ "\n").data = s.data ++ ['\n'] := by
    rw [String.data_append]
  exact (matchClassPlus_iff _).mpr ⟨s.data, h1, h2, Or.inr hdata⟩

/-- Witness for C10 at the concrete input `"abc"`. -/
theorem c10_trailing_newline_accepted_witness :
    ("abc".data ≠ [] ∧ "abc".data.all isAllowedChar = true) ∧
      is_valid_user_name ("abc" ++ "\n") = true :=
  ⟨⟨by decide, by decide⟩,
    c10_trailing_newline_accepted "abc" (by decide) (by decide)⟩

/-- C2: for every bucket name `B` and user name `U`, the Enumerate
(`s3:ListBucket`) policy document has a single statement whose condition
has `s3:prefix` values exactly `["", U ++ "/"]` and `s3:delimiter` `"/"`,
and whose resource is the whole-bucket arn built from `B` alone. -/
theorem c2_enumerate_policy_shape (B U : String) :
    create_policy_doc "s3:ListBucket" B U =
      { version := "2012-10-17",
        statement := [{ effect := "Allow", action := "s3:ListBucket",
                        resource := "arn:aws:s3:::" ++ B,
                        condition := some { pfxValues := ["", U ++ "/"],
                                            delimValues := ["/"] } }] } :=
  rfl

/-- C3: for every bucket name `B` and user name `U`, the Retrieve
(`s3:GetObject`) policy document has a single statement whose resource is
`arn:aws:s3:::B/U/*` and which carries no condition block. -/
theorem c3_retrieve_policy_shape (B U : String) :
    create_policy_doc "s3:GetObject" B U =
      { version := "2012-10-17",
        statement := [{ effect := "Allow", action := "s3:GetObject",
                        resource := "arn:aws:s3:::" ++ B ++ "/" ++ U ++ "/*",
                        condition := none }] } :=
  rfl

/-- C4: one namespace prefix `p = U ++ "/"` is derived from the user name,
and it is at once the non-root `s3:prefix` condition value of the
Enumerate policy and the folder segment embedded in the Retrieve policy's
resource arn: the two scopings agree for all inputs. -/
theorem c4_scoping_derived_identically (B U : String) :
    ∃ p : String, p = U ++ "/" ∧
      (create_policy_doc "s3:ListBucket" B U).statement =
        [{ effect := "Allow", action := "s3:ListBucket",
           resource := "arn:aws:s3:::" ++ B,
           condition := some { pfxValues := ["", p],
                               delimValues := ["/"] } }] ∧
      (create_policy_doc "s3:GetObject" B U).statement =
        [{ effect := "Allow", action := "s3:GetObject",
           resource := "arn:aws:s3:::" ++ B ++ "/" ++ p ++ "*",
           condition := none }] := by
  refine ⟨U ++ "/", rfl, rfl, ?_⟩
  have h : "arn:aws:s3:::" ++ B ++ "/" ++ (U ++ "/") ++ "*" =
      "arn:aws:s3:::" ++ B ++ "/" ++ U ++ "/*" := by
    rw [String.append_assoc ("arn:aws:s3:::" ++ B ++ "/") (U ++ "/") "*",
      String.append_assoc U "/" "*",
      ← String.append_assoc ("arn:aws:s3:::" ++ B ++ "/") U ("/" ++ "*")]
    rfl
  rw [h]
  rfl

/-- C5: when the bucket-existence check fails, provisioning reports the
missing bucket and issues no provider-state-changing call: the trace is
empty, so no identity is created, no policy is created or attached, no
credential is issued, and no local file is written. -/
theorem c5_bucket_missing_no_side_effects (b u : String) (w : World)
    (h : w.buckets.contains b = false) :
    create_s3_user b u w =
      (exit_program ("Bucket does not exist: " ++ b), []) := by
  have hmem : ¬ b ∈ w.buckets := by simpa using h
  unfold create_s3_user
  simp [hmem, h]

/-- A provider account with no buckets, users, policies, keys or objects. -/
def emptyWorld : World :=
  { buckets := [], users := [], localPolicies := [], keyResult := none,
    userKeys := [], objects := [], createUserErr := none,
    createPolicyErr := none, attachPolicyErr := none, deleteKeyErr := none,
    detachPolicyErr := none, deletePolicyErr := none, deleteUserErr := none,
    deleteObjectsErr := none }

/-- Witness for C5 at a concrete missing bucket. -/
theorem c5_bucket_missing_no_side_effects_witness :
    (emptyWorld.buckets.contains "bkt" = false) ∧
      create_s3_user "bkt" "dave" emptyWorld =
        (exit_program ("Bucket does not exist: " ++ "bkt"), []) :=
  ⟨by decide,
    c5_bucket_missing_no_side_effects "bkt" "dave" emptyWorld (by decide)⟩

/-- C6: when the user name equals an existing identity's name, the run
fails at the uniqueness check with an empty trace: the identity is not
created and no policy is created or attached. -/
theorem c6_duplicate_user_rejected (b u : String) (w : World)
    (hb : w.buckets.contains b = true) (hv : is_valid_user_name u = true)
    (hu : w.users.contains u = true) :
    create_s3_user b u w =
      (exit_program ("This user already exists in the account: " ++ u), []) := by
  have hb' : b ∈ w.buckets := by simpa using hb
  have hu' : u ∈ w.users := by simpa using hu
  unfold create_s3_user
  simp [hb', hv, hu']

/-- A provider account holding the bucket `bkt` and the user `dave`. -/
def worldA : World :=
  { buckets := ["bkt"], users := ["dave"], localPolicies := [],
    keyResult := none, userKeys := [], objects := [], createUserErr := none,
    createPolicyErr := none, attachPolicyErr := none, deleteKeyErr := none,
    detachPolicyErr := none, deletePolicyErr := none, deleteUserErr := none,
    deleteObjectsErr := none }

/-- Witness for C6 at a concrete duplicate user. -/
theorem c6_duplicate_user_rejected_witness :
    (worldA.buckets.contains "bkt" = true ∧ is_valid_user_name "dave" = true ∧
        worldA.users.contains "dave" = true) ∧
      create_s3_user "bkt" "dave" worldA =
        (exit_program ("This user already exists in the account: " ++ "dave"), []) :=
  ⟨⟨by decide, by decide, by decide⟩,
    c6_duplicate_user_rejected "bkt" "dave" worldA
      (by decide) (by decide) (by decide)⟩

/-- The error path prints one `ERROR. Exiting.` line and sets status 0. -/
lemma exit_program_ok (m : String) :
    (exit_program m).exitCode = 0 ∧
      ((exit_program m).printed = "Success!" ∨
        ∃ x, (exit_program m).printed = "ERROR. Exiting. " ++ x) :=
  ⟨rfl, Or.inr ⟨m, rfl⟩⟩

/-- The success path prints `Success!` and the status is 0. -/
lemma success_result_ok :
    success_result.exitCode = 0 ∧
      (success_result.printed = "Success!" ∨
        ∃ x, success_result.printed = "ERROR. Exiting. " ++ x) :=
  ⟨rfl, Or.inl rfl⟩

/-- C7: every run of either script ends with process exit status 0, and
prints exactly one of `Success!` or `ERROR. Exiting. <message>`; success
and failure are distinguished only by that printed line. -/
theorem c7_exit_status_always_zero (b u : String) (w : World) :
    ((create_s3_user b u w).1.exitCode = 0 ∧
      ((create_s3_user b u w).1.printed = "Success!" ∨
        ∃ m, (create_s3_user b u w).1.printed = "ERROR. Exiting. " ++ m)) ∧
    ((delete_s3_user b u w).1.exitCode = 0 ∧
      ((delete_s3_user b u w).1.printed = "Success!" ∨
        ∃ m, (delete_s3_user b u w).1.printed = "ERROR. Exiting. " ++ m)) := by
  constructor
  · simp only [create_s3_user]
    repeat' split
    all_goals first
      | exact exit_program_ok _
      | exact success_result_ok
  · simp only [delete_s3_user]
    repeat' split
    all_goals first
      | exact exit_program_ok _
      | exact success_result_ok

/-- When no listed local policy matches the deterministic name, the inner
removal loop issues no call and raises nothing. -/
lemma detachDeleteLoop_not_found (u n : String) (de pe : Option String)
    (ps : List String) (h : ¬ n ∈ ps) :
    detachDeleteLoop u n de pe ps = ([], none) := by
  induction ps with
  | nil => rfl
  | cons p rest ih =>
    have hpn : (p == n) = false := by
      refine beq_eq_false_iff_ne.mpr ?_
      intro he
      exact h (by simp [he])
    have h2 : ¬ n ∈ rest := fun hm => h (List.mem_cons_of_mem p hm)
    simp only [detachDeleteLoop]
    simp [hpn, ih h2]

/-- When no listed local policy matches the name, the policy step only
logs the not-found warning. -/
lemma policyStep_not_found (u n : String) (w : World)
    (h : w.localPolicies.contains n = false) :
    policyStep u n w =
      ([], ["Cannot find policy to remove: " ++ n ++ "."], none) := by
  have hm : ¬ n ∈ w.localPolicies := by simpa using h
  simp only [policyStep]
  rw [detachDeleteLoop_not_found u n w.detachPolicyErr w.deletePolicyErr
    w.localPolicies hm]
  simp [h]
  exact hm

/-- Every call of the access-key step is a key deletion, hence
namespace-scoped trivially. -/
lemma keysStep_scoped (u : String) (w : World) :
    ∀ c ∈ (keysStep u w).1, objScoped u c = true := by
  intro c hc
  unfold keysStep at hc
  split at hc
  · simp at hc
  · split at hc
    · simp at hc
    · simp only [List.mem_map] at hc
      obtain ⟨k, -, rfl⟩ := hc
      rfl

/-- Every call of the inner policy-removal loop is a policy detach or a
policy deletion, hence namespace-scoped trivially. -/
lemma detachDeleteLoop_scoped (u n : String) (de pe : Option String)
    (ps : List String) :
    ∀ c ∈ (detachDeleteLoop u n de pe ps).1, objScoped u c = true := by
  induction ps with
  | nil =>
    intro c hc
    simp [detachDeleteLoop] at hc
  | cons p rest ih =>
    intro c hc
    simp only [detachDeleteLoop] at hc
    split at hc
    · split at hc
      · simp at hc
      · split at hc
        · simp only [List.mem_singleton] at hc
          subst hc
          rfl
        · simp only [List.mem_cons] at hc
          rcases hc with rfl | rfl | hc
          · rfl
          · rfl
          · exact ih c hc
    · exact ih c hc

/-- Every call of the policy step is namespace-scoped trivially. -/
lemma policyStep_scoped (u n : String) (w : World) :
    ∀ c ∈ (policyStep u n w).1, objScoped u c = true := by
  intro c hc
  simp only [policyStep] at hc
  split at hc
  · exact detachDeleteLoop_scoped u n _ _ _ c hc
  · exact detachDeleteLoop_scoped u n _ _ _ c hc

/-- C9: every storage-object listing and every storage-object deletion a
deprovisioning run issues against the bucket is filtered by the prefix
`user_name ++ "/"`; no whole-bucket or differently-scoped object operation
ever appears in the trace. -/
theorem c9_object_ops_scoped_to_user (b u : String) (w : World) :
    ∀ c ∈ (delete_s3_user b u w).2.1, objScoped u c = true := by
  intro c hc
  simp only [delete_s3_user] at hc
  split at hc
  · exact keysStep_scoped u w c hc
  · split at hc
    · rcases List.mem_append.mp hc with h1 | h1
      · exact keysStep_scoped u w c h1
      · exact policyStep_scoped u (user_policy_name u "list") w c h1
    · split at hc
      · rcases List.mem_append.mp hc with h1 | h1
        · rcases List.mem_append.mp h1 with h2 | h2
          · exact keysStep_scoped u w c h2
          · exact policyStep_scoped u (user_policy_name u "list") w c h2
        · exact policyStep_scoped u (user_policy_name u "get") w c h1
      · split at hc
        · rcases List.mem_append.mp hc with h1 | h1
          · rcases List.mem_append.mp h1 with h2 | h2
            · exact keysStep_scoped u w c h2
            · exact policyStep_scoped u (user_policy_name u "list") w c h2
          · exact policyStep_scoped u (user_policy_name u "get") w c h1
        · split at hc
          · rcases List.mem_append.mp hc with h1 | h1
            · rcases List.mem_append.mp h1 with h2 | h2
              · rcases List.mem_append.mp h2 with h3 | h3
                · exact keysStep_scoped u w c h3
                · exact policyStep_scoped u (user_policy_name u "list") w c h3
              · exact policyStep_scoped u (user_policy_name u "get") w c h2
            · rcases List.mem_singleton.mp h1 with rfl
              rfl
          · split at hc
            · split at hc
              · rcases List.mem_append.mp hc with h1 | h1
                · rcases List.mem_append.mp h1 with h2 | h2
                  · rcases List.mem_append.mp h2 with h3 | h3
                    · rcases List.mem_append.mp h3 with h4 | h4
                      · exact keysStep_scoped u w c h4
                      · exact policyStep_scoped u (user_policy_name u "list") w c h4
                    · exact policyStep_scoped u (user_policy_name u "get") w c h3
                  · rcases List.mem_singleton.mp h2 with rfl
                    rfl
                · rcases List.mem_singleton.mp h1 with rfl
                  simp [objScoped]
              · rcases List.mem_append.mp hc with h1 | h1
                · rcases List.mem_append.mp h1 with h2 | h2
                  · rcases List.mem_append.mp h2 with h3 | h3
                    · rcases List.mem_append.mp h3 with h4 | h4
                      · rcases List.mem_append.mp h4 with h5 | h5
                        · exact keysStep_scoped u w c h5
                        · exact policyStep_scoped u (user_policy_name u "list") w c h5
                      · exact policyStep_scoped u (user_policy_name u "get") w c h4
                    · rcases List.mem_singleton.mp h3 with rfl
                      rfl
                  · rcases List.mem_singleton.mp h2 with rfl
                    simp [objScoped]
                · rcases List.mem_singleton.mp h1 with rfl
                  simp [objScoped]
            · rcases List.mem_append.mp hc with h1 | h1
              · rcases List.mem_append.mp h1 with h2 | h2
                · rcases List.mem_append.mp h2 with h3 | h3
                  · rcases List.mem_append.mp h3 with h4 | h4
                    · exact keysStep_scoped u w c h4
                    · exact policyStep_scoped u (user_policy_name u "list") w c h4
                  · exact policyStep_scoped u (user_policy_name u "get") w c h3
                · rcases List.mem_singleton.mp h2 with rfl
                  rfl
              · rcases List.mem_singleton.mp h1 with rfl
                simp [objScoped]

/-- A provider account holding bucket `bkt`, no keys or Local policies,
and two objects of which one lies under the `dave/` namespace. -/
def worldB : World :=
  { buckets := ["bkt"], users := ["dave"], localPolicies := [],
    keyResult := none, userKeys := [],
    objects := ["dave/a.txt", "eve/b.txt"], createUserErr := none,
    createPolicyErr := none, attachPolicyErr := none, deleteKeyErr := none,
    detachPolicyErr := none, deletePolicyErr := none, deleteUserErr := none,
    deleteObjectsErr := none }

/-- Witness for C9 at a concrete run and a concrete traced call. -/
theorem c9_object_ops_scoped_to_user_witness :
    (DCall.listObjects "bkt" ("dave" ++ "/")
        ∈ (delete_s3_user "bkt" "dave" worldB).2.1) ∧
      objScoped "dave" (DCall.listObjects "bkt" ("dave" ++ "/")) = true :=
  ⟨by decide,
    c9_object_ops_scoped_to_user "bkt" "dave" worldB
      (DCall.listObjects "bkt" ("dave" ++ "/")) (by decide)⟩

/-- C8: deprovisioning an identity for which the provider reports zero
credential pairs and zero Local policies matching the two deterministic
policy names does not fail: the absences are logged as warnings, the
identity is still deleted, and object deletion under the prefix
`u ++ "/"` is still attempted (the prefix-filtered listing always runs and
the batch deletion runs whenever that listing finds objects). -/
theorem c8_delete_tolerates_absences (b u : String) (w : World)
    (hk : w.userKeys = [])
    (hl : w.localPolicies.contains (user_policy_name u "list") = false)
    (hg : w.localPolicies.contains (user_policy_name u "get") = false)
    (hdu : w.deleteUserErr = none)
    (hb : w.buckets.contains b = true)
    (hobj : w.deleteObjectsErr = none) :
    (delete_s3_user b u w).1 = success_result ∧
      DCall.deleteUser u ∈ (delete_s3_user b u w).2.1 ∧
      DCall.listObjects b (u ++ "/") ∈ (delete_s3_user b u w).2.1 ∧
      ("No access keys found for user " ++ u ++ ".")
        ∈ (delete_s3_user b u w).2.2 ∧
      ("Cannot find policy to remove: " ++ user_policy_name u "list" ++ ".")
        ∈ (delete_s3_user b u w).2.2 ∧
      ("Cannot find policy to remove: " ++ user_policy_name u "get" ++ ".")
        ∈ (delete_s3_user b u w).2.2 ∧
      (0 < (w.objects.filter (fun k => startsWithPfx k (u ++ "/"))).length →
        DCall.deleteObjects b (u ++ "/") ∈ (delete_s3_user b u w).2.1) := by
  have hkey : keysStep u w =
      ([], ["No access keys found for user " ++ u ++ "."], none) := by
    unfold keysStep
    rw [hk]
  have hpl := policyStep_not_found u (user_policy_name u "list") w hl
  have hpg := policyStep_not_found u (user_policy_name u "get") w hg
  have hbm : b ∈ w.buckets := by simpa using hb
  by_cases hcnt :
      0 < (w.objects.filter (fun k => startsWithPfx k (u ++ "/"))).length
  · simp [delete_s3_user, hkey, hpl, hpg, hdu, hb, hbm, hobj, hcnt]
  · simp [delete_s3_user, hkey, hpl, hpg, hdu, hb, hbm, hcnt]

/-- Witness for C8 at a concrete bucket, user, and account state. -/
theorem c8_delete_tolerates_absences_witness :
    (worldB.userKeys = [] ∧
      worldB.localPolicies.contains (user_policy_name "dave" "list") = false ∧
      worldB.localPolicies.contains (user_policy_name "dave" "get") = false ∧
      worldB.deleteUserErr = none ∧
      worldB.buckets.contains "bkt" = true ∧
      worldB.deleteObjectsErr = none) ∧
    ((delete_s3_user "bkt" "dave" worldB).1 = success_result ∧
      DCall.deleteUser "dave" ∈ (delete_s3_user "bkt" "dave" worldB).2.1 ∧
      DCall.listObjects "bkt" ("dave" ++ "/")
        ∈ (delete_s3_user "bkt" "dave" worldB).2.1 ∧
      ("No access keys found for user " ++ "dave" ++ ".")
        ∈ (delete_s3_user "bkt" "dave" worldB).2.2 ∧
      ("Cannot find policy to remove: " ++ user_policy_name "dave" "list" ++ ".")
        ∈ (delete_s3_user "bkt" "dave" worldB).2.2 ∧
      ("Cannot find policy to remove: " ++ user_policy_name "dave" "get" ++ ".")
        ∈ (delete_s3_user "bkt" "dave" worldB).2.2 ∧
      (0 < (worldB.objects.filter
            (fun k => startsWithPfx k ("dave" ++ "/"))).length →
        DCall.deleteObjects "bkt" ("dave" ++ "/")
          ∈ (delete_s3_user "bkt" "dave" worldB).2.1)) :=
  ⟨⟨rfl, by decide, by decide, rfl, by decide, rfl⟩,
    c8_delete_tolerates_absences "bkt" "dave" worldB rfl (by decide)
      (by decide) rfl (by decide) rfl⟩

end S3User
